import Mathlib

/-!
Verification of the xhs-toolkit MCP server against its specification.

The definitions below are a shallow embedding of the Python source:
`src/server/mcp_server.py` (the `PublishTask` dataclass, `TaskManager`,
the `search_notes` / `get_note_content` tools and the background routine
`MCPServer._execute_publish_task`) and `src/server/xhs_api_adapter.py`
(`XhsApiAdapter.get_nodeid_token`, `XhsApiAdapter.check_cookie`).

Python floats used as epoch timestamps are modelled as `Nat` (`Option Nat`
for fields defaulting to `None`); Python `None`-able arguments are `Option`;
Python truthiness tests (`if status:`, `if task.end_time and ...`) are
modelled exactly, including the fact that the empty string, `None`, the
empty dict and the number `0` are all falsy.
-/

/-- Python truthiness of an optional string argument (`if status:`):
`None` and `""` are falsy. -/
def pyTruthyStr : Option String → Bool
  | none => false
  | some s => s ≠ ""

/-- Python truthiness of an optional dict argument (`if result:`):
`None` and the empty dict are falsy. -/
def pyTruthyDict : Option (List (String × String)) → Bool
  | none => false
  | some l => l ≠ []

/-- Python truthiness of an optional float timestamp (`if task.end_time`):
`None` and `0.0` are falsy. -/
def pyTruthyTime : Option Nat → Bool
  | none => false
  | some e => e ≠ 0

/-- The note payload handed to the task manager.  Modelled from the spec:
the `XHSNote` domain model (title, content, ordered image-path list,
ordered video-path list) lives in `src/xiaohongshu/models.py`, which is not
part of the provided sources; only the fields read by `mcp_server.py`
(`note.title`, `note.images`, `note.videos`) are modelled. -/
structure XHSNote where
  title : String
  content : String
  images : List String
  videos : List String
deriving Repr, DecidableEq

/-- The `PublishTask` dataclass of `src/server/mcp_server.py`. -/
structure PublishTask where
  task_id : String
  status : String
  note : XHSNote
  progress : Int
  message : String
  result : Option (List (String × String)) := none
  start_time : Nat
  end_time : Option Nat := none
deriving Repr, DecidableEq

/-- The `TaskManager` of `src/server/mcp_server.py`: `tasks` is the
`Dict[str, PublishTask]` registry, `running_tasks` records which task ids
still have a registered `asyncio.Task` background handle. -/
structure TaskManager where
  tasks : String → Option PublishTask
  running_tasks : String → Bool

/-- The task record built by `TaskManager.create_task`. -/
def createdTask (uuidStr : String) (now : Nat) (note : XHSNote) : PublishTask :=
  { task_id := uuidStr.take 8
    status := "pending"
    note := note
    progress := 0
    message := "任务已创建，准备开始"
    start_time := now }

/-- Embedding of `TaskManager.create_task`: the id is `str(uuid.uuid4())[:8]`; the
uuid string is passed in as a parameter (`uuidStr`), as is the current
clock value `now` (`time.time()`).  Returns the updated manager and the
generated id. -/
def TaskManager.create_task (tm : TaskManager) (uuidStr : String) (now : Nat)
    (note : XHSNote) : TaskManager × String :=
  let task_id := uuidStr.take 8
  ({ tm with tasks := fun id =>
       if id = task_id then some (createdTask uuidStr now note) else tm.tasks id },
   task_id)

/-- The field mutations `TaskManager.update_task` performs on an existing
task.  Faithful to the Python guards: `if status:` and `if message:` and
`if result:` are truthiness tests, `if progress is not None:` is an
explicit `None` test, and `if status in ["completed", "failed"]:` stamps
`end_time = time.time()` (the parameter `now`). -/
def updatedTask (task : PublishTask) (now : Nat) (status : Option String)
    (progress : Option Int) (message : Option String)
    (result : Option (List (String × String))) : PublishTask :=
  let task := if pyTruthyStr status then
      { task with status := status.getD task.status } else task
  let task := match progress with
    | some p => { task with progress := p }
    | none => task
  let task := if pyTruthyStr message then
      { task with message := message.getD task.message } else task
  let task := if pyTruthyDict result then { task with result := result } else task
  if status = some "completed" ∨ status = some "failed" then
    { task with end_time := some now } else task

/-- Embedding of `TaskManager.update_task`: applies the provided fields (see
`updatedTask`) to an existing task.  A missing `task_id` makes the whole
call a no-op. -/
def TaskManager.update_task (tm : TaskManager) (now : Nat) (task_id : String)
    (status : Option String := none) (progress : Option Int := none)
    (message : Option String := none)
    (result : Option (List (String × String)) := none) : TaskManager :=
  match tm.tasks task_id with
  | none => tm
  | some task =>
    { tm with tasks := fun id =>
        if id = task_id then some (updatedTask task now status progress message result)
        else tm.tasks id }

/-- The expiry test of `TaskManager.remove_old_tasks`:
`task.end_time and (current_time - task.end_time) > max_age_seconds`. -/
def taskExpired (now : Nat) (max_age_seconds : Nat) (t : PublishTask) : Bool :=
  pyTruthyTime t.end_time &&
    ((now : Int) - (t.end_time.getD 0 : Int) > (max_age_seconds : Int))

/-- Embedding of `TaskManager.remove_old_tasks`: deletes every expired task and, for a
deleted task whose background handle is still registered, cancels the
handle and drops it.  Returns the updated manager together with the
cancellation record (`cancelled id = true` iff the handle of `id` was
cancelled by this call). -/
def TaskManager.remove_old_tasks (tm : TaskManager) (now : Nat)
    (max_age_seconds : Nat := 3600) : TaskManager × (String → Bool) :=
  ({ tasks := fun id =>
       match tm.tasks id with
       | some t => if taskExpired now max_age_seconds t then none else some t
       | none => none
     running_tasks := fun id =>
       match tm.tasks id with
       | some t => if taskExpired now max_age_seconds t then false
                   else tm.running_tasks id
       | none => tm.running_tasks id },
   fun id =>
     match tm.tasks id with
     | some t => taskExpired now max_age_seconds t && tm.running_tasks id
     | none => false)

/-! ## Background publish routine (`MCPServer._execute_publish_task`) -/

/-- One `task_manager.update_task(...)` call issued by the background
routine: the optional arguments it passes. -/
structure StatusUpdate where
  status : Option String
  progress : Option Int
  message : Option String
  result : Option (List (String × String)) := none
deriving Repr, DecidableEq

/-- The sequence of `update_task` calls performed by
`MCPServer._execute_publish_task`, as a function of its environment:
whether the cookies file exists (`cookiesExist`), the note of the task
(whose media lists decide the `uploading` vs `publishing` branch via the
truthiness of `task.note.images or task.note.videos`), and whether
`client.publish_note` reports success (`publishSuccess`).  The
`result.to_dict()` payloads are abstracted to their success flag. -/
def executePublishUpdates (cookiesExist : Bool) (note : XHSNote)
    (publishSuccess : Bool) : List StatusUpdate :=
  ⟨some "validating", some 5, some "正在快速验证登录状态...", none⟩ ::
  if !cookiesExist then
    [⟨some "failed", some 0, some "❌ 未找到登录cookies，请先登录小红书",
      some [("success", "False"), ("error_type", "auth_required")]⟩]
  else
    ⟨some "initializing", some 10,
     some "✅ 登录状态验证通过，正在初始化浏览器...", none⟩ ::
    if note.images ≠ [] ∨ note.videos ≠ [] then
      ⟨some "uploading", some 20, some "正在上传文件...", none⟩ ::
      if publishSuccess then
        [⟨some "completed", some 100, some "发布成功！", some [("success", "True")]⟩]
      else
        [⟨some "failed", some 0, some "发布失败", some [("success", "False")]⟩]
    else
      ⟨some "publishing", some 60, some "正在发布笔记...", none⟩ ::
      if publishSuccess then
        [⟨some "completed", some 100, some "发布成功！", some [("success", "True")]⟩]
      else
        [⟨some "failed", some 0, some "发布失败", some [("success", "False")]⟩]

/-- The statuses written by the background routine, in order. -/
def publishStatusTrace (cookiesExist : Bool) (note : XHSNote)
    (publishSuccess : Bool) : List String :=
  (executePublishUpdates cookiesExist note publishSuccess).filterMap (·.status)

/-- Folds a list of `update_task` calls (all at clock value `now`) over a
task manager, as the background routine does for its task id. -/
def applyUpdates (tm : TaskManager) (task_id : String) (now : Nat) :
    List StatusUpdate → TaskManager
  | [] => tm
  | u :: us =>
    applyUpdates (tm.update_task now task_id u.status u.progress u.message u.result)
      task_id now us

/-- Position of a status in the pipeline chain
pending → validating → initializing → uploading → filling → publishing →
{completed, failed}; both terminal statuses share the last position. -/
def statusIndex (s : String) : Nat :=
  if s = "pending" then 0
  else if s = "validating" then 1
  else if s = "initializing" then 2
  else if s = "uploading" then 3
  else if s = "filling" then 4
  else if s = "publishing" then 5
  else 6

/-- Terminal statuses (`status in ["completed", "failed"]`). -/
def statusTerminal (s : String) : Bool := s = "completed" || s = "failed"

/-! ## Strings: Python helpers used by the tools -/

/-- Tests whether `sub` is a leading match of `hay` (helper for the Python `in`
substring test). -/
def leadMatch : List Char → List Char → Bool
  | _, [] => true
  | [], _ :: _ => false
  | h :: hs, s :: ss => h = s && leadMatch hs ss

/-- Python's `sub in hay` substring test on strings, over the char lists. -/
def hasSubstring (sub : List Char) : List Char → Bool
  | [] => leadMatch [] sub
  | h :: t => leadMatch (h :: t) sub || hasSubstring sub t

/-- Characters stripped by Python's `str.strip()` (the `str.isspace`
set restricted to the code points that can occur here). -/
def pyIsSpace (c : Char) : Bool :=
  c = ' ' || c = '\t' || c = '\n' || c = '\r' ||
  c = '\x0b' || c = '\x0c' || c = '\x85' || c = '\xa0'

/-- Python's `str.strip()`: drops leading and trailing whitespace. -/
def pyStrip (s : String) : String :=
  ⟨(s.data.dropWhile pyIsSpace).reverse.dropWhile pyIsSpace |>.reverse⟩

/-! ## API adapter (`src/server/xhs_api_adapter.py`) -/

/-- The `interact_info`/`note_card` data of one search result item, restricted to
the fields `search_notes` reads.  `display_title` is optional because the
tool tests `'display_title' in item['note_card']`. -/
structure NoteCard where
  display_title : Option String
  liked_count : Nat
deriving Repr, DecidableEq

/-- One entry of `data['data']['items']` in a search response. -/
structure SearchItem where
  id : String
  xsec_token : String
  note_card : Option NoteCard
deriving Repr, DecidableEq

/-- The environment of one tool invocation: what the platform API would
answer.  `searchItems = none` models a response without a
`data`/`items` key; `meSuccess` is whether `/api/sns/web/v2/user/me`
returns a `success: true` envelope. -/
structure ApiEnv where
  searchItems : Option (List SearchItem)
  meSuccess : Bool

/-- Embedding of `XhsApiAdapter.check_cookie`: interprets a `success: true` envelope
from `get_me` as a valid session, anything else as invalid. -/
def check_cookie (env : ApiEnv) : String :=
  if env.meSuccess then "cookie有效" else "cookie已失效"

/-! ## The `search_notes` tool (`src/server/mcp_server.py`) -/

/-- One `{index, title, liked_count, url}` record built by `search_notes`. -/
structure SearchResultEntry where
  index : Nat
  title : String
  liked_count : Nat
  url : String
deriving Repr, DecidableEq

/-- The JSON object a tool returns, restricted to the keys the claims
mention; absent keys are `none`. -/
structure ToolResult where
  success : Bool
  message : String
  results : Option (List SearchResultEntry) := none
  total_count : Option Nat := none
  error_message : Option String := none
  suggestion : Option String := none
deriving Repr, DecidableEq

/-- Which adapter methods a `search_notes` invocation actually called. -/
structure CallLog where
  searchCalled : Bool
  checkCookieCalled : Bool
deriving Repr, DecidableEq

/-- The no-items branch of `search_notes`: probes `check_cookie` and
distinguishes "no matches" (session valid) from "invalid session". -/
def searchNoItems (kw : String) (env : ApiEnv) : ToolResult × CallLog :=
  if hasSubstring "有效".data (check_cookie env).data then
    ({ success := true
       message := "未找到与「" ++ kw ++ "」相关的笔记"
       results := some []
       total_count := some 0 }, ⟨true, true⟩)
  else
    ({ success := false
       message := "搜索失败：登录状态无效"
       error_message := some "需要重新登录小红书"
       suggestion := some "请先运行登录工具：login_xiaohongshu()" }, ⟨true, true⟩)

/-- The `search_notes` tool: keyword validation, the adapter search call,
result mapping (`enumerate` indices over all items, entries only for items
carrying a `note_card` with a `display_title`), and the
empty-result/invalid-session distinction via `check_cookie`. -/
def search_notes (keywords : String) (env : ApiEnv) : ToolResult × CallLog :=
  if keywords = "" then
    ({ success := false
       message := "搜索关键词不能为空且必须是字符串"
       error_message := some "无效的搜索参数" }, ⟨false, false⟩)
  else
    let kw := pyStrip keywords
    if kw.length = 0 then
      ({ success := false
         message := "搜索关键词不能为空"
         error_message := some "搜索关键词为空" }, ⟨false, false⟩)
    else
      match env.searchItems with
      | some items =>
        if items.length > 0 then
          let results := items.enum.filterMap fun p =>
            match p.2.note_card with
            | some card =>
              match card.display_title with
              | some title =>
                some { index := p.1
                       title := title
                       liked_count := card.liked_count
                       url := "https://www.xiaohongshu.com/explore/" ++ p.2.id
                              ++ "?xsec_token=" ++ p.2.xsec_token }
              | none => none
            | none => none
          ({ success := true
             message := "成功找到 " ++ toString results.length ++ " 条与「" ++ kw
                        ++ "」相关的笔记"
             results := some results
             total_count := some results.length }, ⟨true, false⟩)
        else
          searchNoItems kw env
      | none => searchNoItems kw env

/-! ## URL parsing (`XhsApiAdapter.get_nodeid_token`)

The routine calls `urllib.parse.urlparse` and `parse_qs`; the definitions
below model those library functions for http(s)-style URLs (scheme
detection, `//netloc` stripping, fragment then query splitting).
`parse_qs` drops blank values as `keep_blank_values=False` does and
applies `unquote_plus` to each name and value: `+` becomes a space and
`%XY` hex escapes are decoded.  The escape decoding is bytewise — exact
for ASCII escapes, while multi-byte UTF-8 escape sequences are not
recombined into one code point; the theorems below therefore quantify
only over `+`- and `%`-free tokens, on which `unquote_plus` (both in
Python and here) is the identity. -/

/-- Splits a char list at the first occurrence of `d`: the part before it
and, when `d` occurs, the part after it. -/
def splitOnFirst (d : Char) : List Char → List Char × Option (List Char)
  | [] => ([], none)
  | c :: cs =>
    if c = d then ([], some cs)
    else
      let r := splitOnFirst d cs
      (c :: r.1, r.2)

/-- A character allowed in a URL scheme after the first one. -/
def isSchemeChar (c : Char) : Bool :=
  c.isAlphanum || c = '+' || c = '-' || c = '.'

/-- Drops a leading `scheme:` (as `urlparse` recognizes one: nonempty,
first char alphabetic, the rest scheme characters); otherwise returns the
input unchanged. -/
def stripScheme (url : List Char) : List Char :=
  match splitOnFirst ':' url with
  | (before, some rest) =>
    if before ≠ [] ∧ (before.headD 'a').isAlpha ∧ before.all isSchemeChar then rest
    else url
  | (_, none) => url

/-- After a leading `//`, the netloc extends to the first `/`, `?` or `#`
(which is kept); scans for that first delimiter. -/
def afterNetloc : List Char → List Char
  | [] => []
  | c :: cs => if c = '/' ∨ c = '?' ∨ c = '#' then c :: cs else afterNetloc cs

/-- Drops a leading `//netloc`, as `urlparse` does. -/
def stripNetloc : List Char → List Char
  | '/' :: '/' :: r => afterNetloc r
  | r => r

/-- The `(path, query)` pair of `urlparse`: scheme and netloc stripped,
fragment split off first, then the query. -/
def urlPathQuery (url : List Char) : List Char × List Char :=
  let r1 := stripNetloc (stripScheme url)
  let r2 := (splitOnFirst '#' r1).1
  let (path, qOpt) := splitOnFirst '?' r2
  (path, qOpt.getD [])

/-- Python's `str.split(sep)` for a one-character separator: never empty,
adjacent separators yield empty fields. -/
def pySplit (d : Char) : List Char → List (List Char)
  | [] => [[]]
  | c :: cs =>
    if c = d then [] :: pySplit d cs
    else
      match pySplit d cs with
      | [] => [[c]]
      | h :: t => (c :: h) :: t

/-- The value of a hex digit, if `c` is one (for `%XY` escape decoding). -/
def hexDigitVal (c : Char) : Option Nat :=
  if '0' ≤ c ∧ c ≤ '9' then some (c.toNat - '0'.toNat)
  else if 'a' ≤ c ∧ c ≤ 'f' then some (c.toNat - 'a'.toNat + 10)
  else if 'A' ≤ c ∧ c ≤ 'F' then some (c.toNat - 'A'.toNat + 10)
  else none

/-- The `+`-to-space replacement step of `unquote_plus`. -/
def pyPlusToSpace (l : List Char) : List Char :=
  l.map fun c => if c = '+' then ' ' else c

/-- The percent-decoding step of `unquote`: a `%` followed by two hex
digits becomes the character of that byte value (bytewise: exact for
ASCII escapes; multi-byte UTF-8 escape sequences are not recombined); an
invalid escape is kept literally, as Python does. -/
def pyUnquote : List Char → List Char
  | [] => []
  | '%' :: c1 :: c2 :: rest2 =>
    match hexDigitVal c1, hexDigitVal c2 with
    | some hi, some lo => Char.ofNat (16 * hi + lo) :: pyUnquote rest2
    | _, _ => '%' :: pyUnquote (c1 :: c2 :: rest2)
  | c :: rest => c :: pyUnquote rest

/-- Python's `unquote_plus`, as `parse_qsl` applies it to every name and
value: `+` to space, then percent-decoding. -/
def pyUnquotePlus (l : List Char) : List Char :=
  pyUnquote (pyPlusToSpace l)

/-- Embedding of `parse_qs(query).get(key, [None])[0]`: the first value
bound to `key` in the query string, if any.  As `parse_qsl` does, a pair
is kept when its raw value is non-blank, and `unquote_plus` is then
applied to the name and the value. -/
def parseQsGet (query : List Char) (key : List Char) : Option (List Char) :=
  ((pySplit '&' query).filterMap fun pair =>
    match splitOnFirst '=' pair with
    | (k, some v) => if v ≠ [] then some (pyUnquotePlus k, pyUnquotePlus v)
                     else none
    | (_, none) => none)
  |>.find? (fun kv => kv.1 = key) |>.map (·.2)

/-- The `{note_id, xsec_token}` record returned by
`XhsApiAdapter.get_nodeid_token`. -/
structure NodeIdToken where
  note_id : String
  xsec_token : Option String
deriving Repr, DecidableEq

/-- Embedding of `XhsApiAdapter.get_nodeid_token(url=None, note_ids=None)`: with
`note_ids` given, slices it at position 24; otherwise parses the URL,
takes the trailing path segment (`path.split('/')[-1]`) as `note_id` and
the first `xsec_token` query value (or `None`) as `xsec_token`. -/
def get_nodeid_token (url : Option String := none)
    (note_ids : Option String := none) : NodeIdToken :=
  match note_ids with
  | some ids => { note_id := ids.take 24, xsec_token := some (ids.drop 24) }
  | none =>
    let pq := urlPathQuery (url.getD "").data
    { note_id := ⟨(pySplit '/' pq.1).getLastD []⟩
      xsec_token := (parseQsGet pq.2 "xsec_token".data).map (⟨·⟩) }

/-! ## Publish-time formatting in the `get_note_content` tool -/

/-- The `publish_time` value built by the `get_note_content` tool from the
note card's millisecond `time` field.  The module `mcp_server.py` never
imports `datetime`, so inside the `try` block the name lookup
`datetime.fromtimestamp` raises `NameError`, which the bare `except`
catches: every truthy (non-zero, present) `time` yields the
`"时间格式错误"` placeholder, and a falsy one yields `"未知时间"`. -/
def getNoteContentPublishTime (time : Option Nat) : String :=
  match time with
  | none => "未知时间"
  | some t => if t = 0 then "未知时间" else "时间格式错误"

/-! ## Helper lemmas on the task manager operations -/

theorem updatedTask_status (task : PublishTask) (now : Nat) (status : Option String)
    (progress : Option Int) (message : Option String)
    (result : Option (List (String × String))) :
    (updatedTask task now status progress message result).status =
      if pyTruthyStr status then status.getD task.status else task.status := by
  unfold updatedTask
  cases progress <;>
    by_cases h1 : pyTruthyStr status <;>
    by_cases h2 : pyTruthyStr message <;>
    by_cases h3 : pyTruthyDict result <;>
    by_cases h4 : status = some "completed" ∨ status = some "failed" <;>
    simp [h1, h2, h3, h4]

theorem updatedTask_progress (task : PublishTask) (now : Nat) (status : Option String)
    (progress : Option Int) (message : Option String)
    (result : Option (List (String × String))) :
    (updatedTask task now status progress message result).progress =
      progress.getD task.progress := by
  unfold updatedTask
  cases progress <;>
    by_cases h1 : pyTruthyStr status <;>
    by_cases h2 : pyTruthyStr message <;>
    by_cases h3 : pyTruthyDict result <;>
    by_cases h4 : status = some "completed" ∨ status = some "failed" <;>
    simp [h1, h2, h3, h4]

theorem updatedTask_message (task : PublishTask) (now : Nat) (status : Option String)
    (progress : Option Int) (message : Option String)
    (result : Option (List (String × String))) :
    (updatedTask task now status progress message result).message =
      if pyTruthyStr message then message.getD task.message else task.message := by
  unfold updatedTask
  cases progress <;>
    by_cases h1 : pyTruthyStr status <;>
    by_cases h2 : pyTruthyStr message <;>
    by_cases h3 : pyTruthyDict result <;>
    by_cases h4 : status = some "completed" ∨ status = some "failed" <;>
    simp [h1, h2, h3, h4]

theorem updatedTask_result (task : PublishTask) (now : Nat) (status : Option String)
    (progress : Option Int) (message : Option String)
    (result : Option (List (String × String))) :
    (updatedTask task now status progress message result).result =
      if pyTruthyDict result then result else task.result := by
  unfold updatedTask
  cases progress <;>
    by_cases h1 : pyTruthyStr status <;>
    by_cases h2 : pyTruthyStr message <;>
    by_cases h3 : pyTruthyDict result <;>
    by_cases h4 : status = some "completed" ∨ status = some "failed" <;>
    simp [h1, h2, h3, h4]

theorem updatedTask_end_time (task : PublishTask) (now : Nat) (status : Option String)
    (progress : Option Int) (message : Option String)
    (result : Option (List (String × String))) :
    (updatedTask task now status progress message result).end_time =
      if status = some "completed" ∨ status = some "failed" then some now
      else task.end_time := by
  unfold updatedTask
  cases progress <;>
    by_cases h1 : pyTruthyStr status <;>
    by_cases h2 : pyTruthyStr message <;>
    by_cases h3 : pyTruthyDict result <;>
    by_cases h4 : status = some "completed" ∨ status = some "failed" <;>
    simp [h1, h2, h3, h4]

theorem updatedTask_start_time (task : PublishTask) (now : Nat) (status : Option String)
    (progress : Option Int) (message : Option String)
    (result : Option (List (String × String))) :
    (updatedTask task now status progress message result).start_time =
      task.start_time := by
  unfold updatedTask
  cases progress <;>
    by_cases h1 : pyTruthyStr status <;>
    by_cases h2 : pyTruthyStr message <;>
    by_cases h3 : pyTruthyDict result <;>
    by_cases h4 : status = some "completed" ∨ status = some "failed" <;>
    simp [h1, h2, h3, h4]

theorem update_task_lookup (tm : TaskManager) (now : Nat) (id : String)
    (t : PublishTask) (st : Option String) (p : Option Int) (m : Option String)
    (r : Option (List (String × String))) (h : tm.tasks id = some t)
    (id' : String) :
    (tm.update_task now id st p m r).tasks id' =
      if id' = id then some (updatedTask t now st p m r) else tm.tasks id' := by
  unfold TaskManager.update_task
  rw [h]

theorem create_task_lookup (tm : TaskManager) (uuidStr : String) (now : Nat)
    (note : XHSNote) (id : String) :
    ((tm.create_task uuidStr now note).1).tasks id =
      if id = uuidStr.take 8 then some (createdTask uuidStr now note)
      else tm.tasks id := by
  unfold TaskManager.create_task
  simp

theorem create_task_snd (tm : TaskManager) (uuidStr : String) (now : Nat)
    (note : XHSNote) :
    (tm.create_task uuidStr now note).2 = uuidStr.take 8 := by
  unfold TaskManager.create_task
  simp

/-! ## Sample data used by the witnesses -/

/-- A task manager with an empty registry. -/
def emptyTM : TaskManager := ⟨fun _ => none, fun _ => false⟩

/-- A sample note. -/
def sampleNote : XHSNote := ⟨"标题", "内容", [], []⟩

/-- A sample note carrying one image. -/
def sampleImageNote : XHSNote := ⟨"标题", "内容", ["a.jpg"], []⟩

/-- A sample stored task (status "pending", no end time). -/
def sampleTask : PublishTask :=
  { task_id := "t1", status := "pending", note := sampleNote, progress := 0
    message := "m", start_time := 100 }

/-- A task manager holding `sampleTask` under id `"t1"`. -/
def sampleTM : TaskManager :=
  ⟨fun id => if id = "t1" then some sampleTask else none, fun _ => false⟩

/-! ## Claim theorems -/

/-- C10: `update_task` on a task id not present in the registry returns
normally (the embedding is total, as is the guarded Python code) and
leaves the manager — the registry and every stored task — completely
unchanged. -/
theorem update_task_absent_id_noop (tm : TaskManager) (now : Nat)
    (task_id : String) (status : Option String) (progress : Option Int)
    (message : Option String) (result : Option (List (String × String)))
    (h : tm.tasks task_id = none) :
    tm.update_task now task_id status progress message result = tm := by
  unfold TaskManager.update_task
  rw [h]

/-- Witness for C10 at a concrete input: the empty registry with a
terminal-status update on an unknown id. -/
theorem update_task_absent_id_noop_witness :
    emptyTM.update_task 42 "deadbeef" (some "completed") (some 50)
      (some "x") none = emptyTM :=
  update_task_absent_id_noop emptyTM 42 "deadbeef" (some "completed") (some 50)
    (some "x") none rfl

/-- C9: on an existing task, `update_task` retains every field whose
argument is omitted (`None` default) — status, progress, message and
result — and a provided progress value of `0` is applied. -/
theorem update_task_frame (tm : TaskManager) (now : Nat) (id : String)
    (t : PublishTask) (status : Option String) (progress : Option Int)
    (message : Option String) (result : Option (List (String × String)))
    (h : tm.tasks id = some t) :
    ∃ t', (tm.update_task now id status progress message result).tasks id = some t' ∧
      (status = none → t'.status = t.status) ∧
      (progress = none → t'.progress = t.progress) ∧
      (message = none → t'.message = t.message) ∧
      (result = none → t'.result = t.result) ∧
      (progress = some 0 → t'.progress = 0) := by
  refine ⟨updatedTask t now status progress message result, ?_, ?_, ?_, ?_, ?_, ?_⟩
  · rw [update_task_lookup tm now id t status progress message result h, if_pos rfl]
  · intro hs; rw [updatedTask_status]; simp [hs, pyTruthyStr]
  · intro hp; rw [updatedTask_progress]; simp [hp]
  · intro hm; rw [updatedTask_message]; simp [hm, pyTruthyStr]
  · intro hr; rw [updatedTask_result]; simp [hr, pyTruthyDict]
  · intro hp; rw [updatedTask_progress]; simp [hp]

/-- Witness for C9 at a concrete input: an update providing only
`progress=0` on the sample registry. -/
theorem update_task_frame_witness :
    ∃ t', (sampleTM.update_task 200 "t1" none (some 0) none none).tasks "t1" =
        some t' ∧
      ((none : Option String) = none → t'.status = sampleTask.status) ∧
      ((some 0 : Option Int) = none → t'.progress = sampleTask.progress) ∧
      ((none : Option String) = none → t'.message = sampleTask.message) ∧
      ((none : Option (List (String × String))) = none →
        t'.result = sampleTask.result) ∧
      ((some 0 : Option Int) = some 0 → t'.progress = 0) :=
  update_task_frame sampleTM 200 "t1" sampleTask none (some 0) none none
    (by simp [sampleTM])

/-- C8: `create_task` returns an id of exactly 8 characters (the uuid
string `str(uuid.uuid4())` always has at least 8 characters), and the
stored task has status `"pending"`, progress `0` and its start time set to
the creation clock. -/
theorem create_task_spec (tm : TaskManager) (uuidStr : String) (now : Nat)
    (note : XHSNote) (h : 8 ≤ uuidStr.length) :
    ((tm.create_task uuidStr now note).2).length = 8 ∧
    ((tm.create_task uuidStr now note).1).tasks
        ((tm.create_task uuidStr now note).2) =
      some (createdTask uuidStr now note) ∧
    (createdTask uuidStr now note).status = "pending" ∧
    (createdTask uuidStr now note).progress = 0 ∧
    (createdTask uuidStr now note).start_time = now ∧
    (createdTask uuidStr now note).end_time = none := by
  refine ⟨?_, ?_, rfl, rfl, rfl, rfl⟩
  · rw [create_task_snd]
    have h1 : (uuidStr.take 8).length = (uuidStr.1.take 8).length := by
      rw [String.take_eq]; rfl
    rw [h1, List.length_take]
    have hd : uuidStr.1.length = uuidStr.length := rfl
    omega
  · rw [create_task_snd, create_task_lookup, if_pos rfl]

/-- Witness for C8 at a concrete input: a 36-character uuid string on the
empty registry. -/
theorem create_task_spec_witness :
    ((emptyTM.create_task "123e4567-e89b-12d3-a456-426614174000" 100
        sampleNote).2).length = 8 ∧
    ((emptyTM.create_task "123e4567-e89b-12d3-a456-426614174000" 100
        sampleNote).1).tasks
        ((emptyTM.create_task "123e4567-e89b-12d3-a456-426614174000" 100
          sampleNote).2) =
      some (createdTask "123e4567-e89b-12d3-a456-426614174000" 100 sampleNote) ∧
    (createdTask "123e4567-e89b-12d3-a456-426614174000" 100
        sampleNote).status = "pending" ∧
    (createdTask "123e4567-e89b-12d3-a456-426614174000" 100
        sampleNote).progress = 0 ∧
    (createdTask "123e4567-e89b-12d3-a456-426614174000" 100
        sampleNote).start_time = 100 ∧
    (createdTask "123e4567-e89b-12d3-a456-426614174000" 100
        sampleNote).end_time = none :=
  create_task_spec emptyTM "123e4567-e89b-12d3-a456-426614174000" 100 sampleNote
    (by decide)

/-- C7 (defect evidence): for a note card carrying a non-zero millisecond
time field, the tool's `publish_time` is the `"时间格式错误"` error
placeholder, not a formatted timestamp (which under `'%Y-%m-%d %H:%M:%S'`
would have 19 characters): `mcp_server.py` never imports `datetime`, so
the formatting expression raises `NameError` into the bare `except`. -/
theorem get_note_content_publish_time_bug :
    getNoteContentPublishTime (some 1718000000000) = "时间格式错误" ∧
    ("时间格式错误" : String).length ≠ 19 := by
  constructor
  · unfold getNoteContentPublishTime
    simp
  · decide

/-- All-whitespace strings strip to the empty string. -/
theorem pyStrip_all_space (s : String) (h : s.data.all pyIsSpace) :
    pyStrip s = "" := by
  unfold pyStrip
  have h1 : s.data.dropWhile pyIsSpace = [] := by
    rw [List.dropWhile_eq_nil_iff]
    intro x hx
    exact List.all_eq_true.mp h x hx
  rw [h1]
  rfl

/-- C5: for a keywords argument that is empty or consists only of
whitespace, `search_notes` returns `success=false` and calls neither the
adapter's search nor its session check (no network request). -/
theorem search_notes_blank_keywords (keywords : String) (env : ApiEnv)
    (h : keywords.data.all pyIsSpace) :
    ((search_notes keywords env).1).success = false ∧
    (search_notes keywords env).2 = ⟨false, false⟩ := by
  by_cases hk : keywords = ""
  · subst hk
    constructor <;> rfl
  · have hs : pyStrip keywords = "" := pyStrip_all_space keywords h
    unfold search_notes
    rw [if_neg hk, hs]
    constructor <;> rfl

/-- Witness for C5 at a concrete input: three spaces, with an environment
that would have answered a search. -/
theorem search_notes_blank_keywords_witness :
    ((search_notes "   " ⟨some [], true⟩).1).success = false ∧
    (search_notes "   " ⟨some [], true⟩).2 = ⟨false, false⟩ :=
  search_notes_blank_keywords "   " ⟨some [], true⟩ (by decide)

/-- C6: on a non-empty keyword whose API response carries no result items,
`search_notes` probes the session: a valid session yields `success=true`
with an empty results list and `total_count=0`; an invalid one yields
`success=false` with the re-login error message — so the two cases are
distinguished. -/
theorem search_notes_no_items (keywords : String) (env : ApiEnv)
    (hs : (pyStrip keywords).length ≠ 0)
    (hitems : env.searchItems = none ∨ env.searchItems = some []) :
    (env.meSuccess = true →
      ((search_notes keywords env).1).success = true ∧
      ((search_notes keywords env).1).results = some [] ∧
      ((search_notes keywords env).1).total_count = some 0) ∧
    (env.meSuccess = false →
      ((search_notes keywords env).1).success = false ∧
      ((search_notes keywords env).1).error_message = some "需要重新登录小红书") ∧
    ((search_notes keywords env).2).checkCookieCalled = true := by
  have hk : keywords ≠ "" := by
    intro hk
    subst hk
    exact hs rfl
  have hres : search_notes keywords env = searchNoItems (pyStrip keywords) env := by
    unfold search_notes
    rw [if_neg hk]
    simp only [if_neg hs]
    rcases hitems with h | h <;> rw [h]
    simp
  have hval : hasSubstring "有效".data "cookie有效".data = true := by decide
  have hinval : hasSubstring "有效".data "cookie已失效".data = false := by decide
  rw [hres]
  unfold searchNoItems check_cookie
  refine ⟨?_, ?_, ?_⟩
  · intro hme
    rw [hme]
    simp [hval]
  · intro hme
    rw [hme]
    simp [hinval]
  · cases hme : env.meSuccess
    · simp [hinval]
    · simp [hval]

/-- Witness for C6 at concrete inputs: keyword `"美食"` with an empty item
list, in both session states. -/
theorem search_notes_no_items_witness :
    ((true = true →
      ((search_notes "美食" ⟨some [], true⟩).1).success = true ∧
      ((search_notes "美食" ⟨some [], true⟩).1).results = some [] ∧
      ((search_notes "美食" ⟨some [], true⟩).1).total_count = some 0) ∧
    (true = false →
      ((search_notes "美食" ⟨some [], true⟩).1).success = false ∧
      ((search_notes "美食" ⟨some [], true⟩).1).error_message =
        some "需要重新登录小红书") ∧
    ((search_notes "美食" ⟨some [], true⟩).2).checkCookieCalled = true) ∧
    ((false = true →
      ((search_notes "美食" ⟨some [], false⟩).1).success = true ∧
      ((search_notes "美食" ⟨some [], false⟩).1).results = some [] ∧
      ((search_notes "美食" ⟨some [], false⟩).1).total_count = some 0) ∧
    (false = false →
      ((search_notes "美食" ⟨some [], false⟩).1).success = false ∧
      ((search_notes "美食" ⟨some [], false⟩).1).error_message =
        some "需要重新登录小红书") ∧
    ((search_notes "美食" ⟨some [], false⟩).2).checkCookieCalled = true) :=
  ⟨search_notes_no_items "美食" ⟨some [], true⟩ (by decide) (Or.inr rfl),
   search_notes_no_items "美食" ⟨some [], false⟩ (by decide) (Or.inr rfl)⟩

/-- A sample stuck task: status `"uploading"`, no end time, old start. -/
def uploadingTask : PublishTask :=
  { task_id := "t1", status := "uploading", note := sampleNote, progress := 20
    message := "m", start_time := 10 }

/-- A sample terminal task: status `"failed"`, end time 998. -/
def failedTask : PublishTask :=
  { task_id := "t2", status := "failed", note := sampleNote, progress := 0
    message := "m", start_time := 900, end_time := some 998 }

/-- A registry holding `uploadingTask` (`"t1"`) and `failedTask` (`"t2"`),
with a background handle registered for `"t2"`. -/
def reapTM : TaskManager :=
  ⟨fun id => if id = "t2" then some failedTask
             else if id = "t1" then some uploadingTask else none,
   fun id => id = "t2"⟩

/-- C4: `remove_old_tasks` deletes exactly the tasks with a set (non-zero
epoch) end time strictly older than `max_age_seconds`, cancelling and
dropping a deleted task's still-registered background handle; a task whose
end time is unset is left untouched (record and handle) regardless of its
age. -/
theorem remove_old_tasks_spec (tm : TaskManager) (now : Nat) (max_age : Nat) :
    (∀ id t e, tm.tasks id = some t → t.end_time = some e → 0 < e →
      (((now : Int) - e > max_age →
        ((tm.remove_old_tasks now max_age).1).tasks id = none ∧
        ((tm.remove_old_tasks now max_age).1).running_tasks id = false ∧
        (tm.remove_old_tasks now max_age).2 id = tm.running_tasks id) ∧
      (¬((now : Int) - e > max_age) →
        ((tm.remove_old_tasks now max_age).1).tasks id = some t ∧
        ((tm.remove_old_tasks now max_age).1).running_tasks id =
          tm.running_tasks id ∧
        (tm.remove_old_tasks now max_age).2 id = false))) ∧
    (∀ id t, tm.tasks id = some t → t.end_time = none →
      ((tm.remove_old_tasks now max_age).1).tasks id = some t ∧
      ((tm.remove_old_tasks now max_age).1).running_tasks id =
        tm.running_tasks id ∧
      (tm.remove_old_tasks now max_age).2 id = false) := by
  constructor
  · intro id t e ht he hpos
    have hexp : taskExpired now max_age t =
        decide ((now : Int) - e > max_age) := by
      unfold taskExpired pyTruthyTime
      rw [he]
      simp only [Option.getD_some]
      have : (e ≠ 0) = True := by simp [Nat.pos_iff_ne_zero.mp hpos]
      simp [Nat.pos_iff_ne_zero.mp hpos]
    constructor
    · intro hold
      unfold TaskManager.remove_old_tasks
      simp [ht, hexp, hold]
    · intro hnot
      unfold TaskManager.remove_old_tasks
      simp [ht, hexp, hnot]
  · intro id t ht he
    have hexp : taskExpired now max_age t = false := by
      unfold taskExpired pyTruthyTime
      rw [he]
      simp
    unfold TaskManager.remove_old_tasks
    simp [ht, hexp]

/-- Witness for C4 at a concrete input: with `now = 1000` and
`max_age_seconds = 1`, the failed task whose end time is 2 seconds in the
past is removed and its handle cancelled, while the old `"uploading"` task
is untouched. -/
theorem remove_old_tasks_spec_witness :
    ((reapTM.remove_old_tasks 1000 1).1).tasks "t2" = none ∧
    ((reapTM.remove_old_tasks 1000 1).1).running_tasks "t2" = false ∧
    (reapTM.remove_old_tasks 1000 1).2 "t2" = reapTM.running_tasks "t2" ∧
    ((reapTM.remove_old_tasks 1000 1).1).tasks "t1" = some uploadingTask ∧
    ((reapTM.remove_old_tasks 1000 1).1).running_tasks "t1" =
      reapTM.running_tasks "t1" := by
  have h := remove_old_tasks_spec reapTM 1000 1
  have h2 := (h.1 "t2" failedTask 998 (by decide) (by decide) (by decide)).1
    (by decide)
  have h1 := h.2 "t1" uploadingTask (by decide) (by decide)
  exact ⟨h2.1, h2.2.1, h2.2.2, h1.1, h1.2.1⟩

/-! ## The end-time/terminal-status invariant -/

/-- A task's end time is set exactly when its status is terminal. -/
def TaskInv (t : PublishTask) : Prop :=
  t.end_time.isSome = statusTerminal t.status

/-- Every task in the registry satisfies `TaskInv`. -/
def ManagerInv (tm : TaskManager) : Prop :=
  ∀ id t, tm.tasks id = some t → TaskInv t

theorem update_task_other (tm : TaskManager) (now : Nat) (task_id : String)
    (st : Option String) (p : Option Int) (m : Option String)
    (r : Option (List (String × String))) (id : String) (h : id ≠ task_id) :
    (tm.update_task now task_id st p m r).tasks id = tm.tasks id := by
  unfold TaskManager.update_task
  cases tm.tasks task_id <;> simp [h]

theorem TaskInv_updatedTask_terminal (t : PublishTask) (now : Nat) (s : String)
    (hs : s = "completed" ∨ s = "failed") (p : Option Int) (m : Option String)
    (r : Option (List (String × String))) :
    TaskInv (updatedTask t now (some s) p m r) := by
  unfold TaskInv
  rw [updatedTask_end_time, updatedTask_status]
  rcases hs with h | h <;> subst h <;> simp [pyTruthyStr, statusTerminal]

theorem executePublishUpdates_getLast_terminal (cookies : Bool) (note : XHSNote)
    (success : Bool) :
    ∀ u, (executePublishUpdates cookies note success).getLast? = some u →
      u.status = some "completed" ∨ u.status = some "failed" := by
  by_cases hm : note.images ≠ [] ∨ note.videos ≠ [] <;>
    cases cookies <;> cases success <;>
    simp [executePublishUpdates, hm]

theorem applyUpdates_inv (id8 : String) (now' : Nat) :
    ∀ (us : List StatusUpdate) (tm : TaskManager),
    (∀ id t, id ≠ id8 → tm.tasks id = some t → TaskInv t) →
    (∀ t, tm.tasks id8 = some t → us = [] → TaskInv t) →
    (∀ u, us.getLast? = some u →
      u.status = some "completed" ∨ u.status = some "failed") →
    ManagerInv (applyUpdates tm id8 now' us) := by
  intro us
  induction us with
  | nil =>
    intro tm hother hid8 _
    intro id t h
    by_cases hid : id = id8
    · subst hid
      exact hid8 t h rfl
    · exact hother id t hid h
  | cons u us ih =>
    intro tm hother hid8 hlast
    show ManagerInv (applyUpdates
      (tm.update_task now' id8 u.status u.progress u.message u.result) id8 now' us)
    cases htm : tm.tasks id8 with
    | none =>
      have hnoop : tm.update_task now' id8 u.status u.progress u.message u.result
          = tm := by
        unfold TaskManager.update_task
        rw [htm]
      rw [hnoop]
      refine ih tm hother ?_ ?_
      · intro t ht _
        rw [htm] at ht
        exact absurd ht (by simp)
      · intro v hv
        apply hlast
        cases us with
        | nil => exact absurd hv (by simp)
        | cons w ws => rw [List.getLast?_cons_cons]; exact hv
    | some t0 =>
      refine ih _ ?_ ?_ ?_
      · intro id t hid ht
        rw [update_task_other _ _ _ _ _ _ _ _ hid] at ht
        exact hother id t hid ht
      · intro t ht hnil
        subst hnil
        rw [update_task_lookup _ _ _ _ _ _ _ _ htm, if_pos rfl] at ht
        have hu := hlast u (by simp)
        rcases hu with h | h <;>
          · rw [h] at ht
            cases ht
            first
            | exact TaskInv_updatedTask_terminal t0 now' "completed" (Or.inl rfl)
                u.progress u.message u.result
            | exact TaskInv_updatedTask_terminal t0 now' "failed" (Or.inr rfl)
                u.progress u.message u.result
      · intro v hv
        apply hlast
        cases us with
        | nil => exact absurd hv (by simp)
        | cons w ws => rw [List.getLast?_cons_cons]; exact hv

theorem TaskInv_createdTask (u : String) (n : Nat) (note : XHSNote) :
    TaskInv (createdTask u n note) := by
  unfold TaskInv createdTask
  simp [statusTerminal]

/-- C1: (i) `create_task` preserves the invariant "end time set iff status
terminal" (the new task: pending, no end time); (ii) the invariant is
preserved across a created task followed by the background routine's full
update sequence, for every environment; (iii) after
`update_task(id, status="completed")` on an existing task the end time is
set and is ≥ the start time (the clock being monotone,
`t.start_time ≤ now`); (iv) after `update_task(id, status="uploading")` on
a task whose end time was unset, it remains unset. -/
theorem end_time_iff_terminal :
    (∀ (tm : TaskManager) (uuidStr : String) (now : Nat) (note : XHSNote),
      ManagerInv tm → ManagerInv ((tm.create_task uuidStr now note).1)) ∧
    (∀ (tm : TaskManager) (uuidStr : String) (now now' : Nat) (note : XHSNote)
      (cookies success : Bool), ManagerInv tm →
      ManagerInv (applyUpdates ((tm.create_task uuidStr now note).1)
        ((tm.create_task uuidStr now note).2) now'
        (executePublishUpdates cookies note success))) ∧
    (∀ (tm : TaskManager) (id : String) (t : PublishTask) (now : Nat)
      (p : Option Int) (m : Option String)
      (r : Option (List (String × String))),
      tm.tasks id = some t → t.start_time ≤ now →
      ∃ t', (tm.update_task now id (some "completed") p m r).tasks id = some t' ∧
        t'.end_time = some now ∧ t'.start_time ≤ now) ∧
    (∀ (tm : TaskManager) (id : String) (t : PublishTask) (now : Nat)
      (p : Option Int) (m : Option String)
      (r : Option (List (String × String))),
      tm.tasks id = some t → t.end_time = none →
      ∃ t', (tm.update_task now id (some "uploading") p m r).tasks id = some t' ∧
        t'.end_time = none) := by
  refine ⟨?_, ?_, ?_, ?_⟩
  · intro tm uuidStr now note h id t hl
    rw [create_task_lookup] at hl
    by_cases hid : id = uuidStr.take 8
    · rw [if_pos hid] at hl
      injection hl with hl2
      subst hl2
      exact TaskInv_createdTask uuidStr now note
    · rw [if_neg hid] at hl
      exact h id t hl
  · intro tm uuidStr now now' note cookies success h
    rw [create_task_snd]
    refine applyUpdates_inv (uuidStr.take 8) now' _ _ ?_ ?_
      (executePublishUpdates_getLast_terminal cookies note success)
    · intro id t hid hl
      rw [create_task_lookup, if_neg hid] at hl
      exact h id t hl
    · intro t _ hnil
      exact absurd hnil (by simp [executePublishUpdates])
  · intro tm id t now p m r hl hst
    refine ⟨updatedTask t now (some "completed") p m r, ?_, ?_, ?_⟩
    · rw [update_task_lookup _ _ _ _ _ _ _ _ hl, if_pos rfl]
    · rw [updatedTask_end_time]
      simp
    · rw [updatedTask_start_time]
      exact hst
  · intro tm id t now p m r hl hend
    refine ⟨updatedTask t now (some "uploading") p m r, ?_, ?_⟩
    · rw [update_task_lookup _ _ _ _ _ _ _ _ hl, if_pos rfl]
    · rw [updatedTask_end_time]
      simp [hend]

/-- Witness for C1 at concrete inputs: the empty registry through creation
and a full successful image-publish run; and single completed/uploading
updates on the sample registry. -/
theorem end_time_iff_terminal_witness :
    ManagerInv ((emptyTM.create_task "123e4567-e89b-12d3-a456-426614174000" 100
      sampleNote).1) ∧
    ManagerInv (applyUpdates
      ((emptyTM.create_task "123e4567-e89b-12d3-a456-426614174000" 100
        sampleImageNote).1)
      ((emptyTM.create_task "123e4567-e89b-12d3-a456-426614174000" 100
        sampleImageNote).2) 200
      (executePublishUpdates true sampleImageNote true)) ∧
    (∃ t', (sampleTM.update_task 200 "t1" (some "completed") (some 100)
        (some "done") none).tasks "t1" = some t' ∧
      t'.end_time = some 200 ∧ t'.start_time ≤ 200) ∧
    (∃ t', (sampleTM.update_task 200 "t1" (some "uploading") (some 20)
        (some "up") none).tasks "t1" = some t' ∧
      t'.end_time = none) := by
  have hinv : ManagerInv emptyTM := by
    intro id t h
    simp [emptyTM] at h
  exact ⟨end_time_iff_terminal.1 emptyTM _ 100 sampleNote hinv,
    end_time_iff_terminal.2.1 emptyTM _ 100 200 sampleImageNote true true hinv,
    end_time_iff_terminal.2.2.1 sampleTM "t1" sampleTask 200 (some 100)
      (some "done") none (by decide) (by decide),
    end_time_iff_terminal.2.2.2 sampleTM "t1" sampleTask 200 (some 20)
      (some "up") none (by decide) (by decide)⟩

/-- C2 counterexample: a successful image-publish run reaches
`"completed"` with the status trace
`validating → initializing → uploading → completed`: the statuses
`"filling"` and `"publishing"` are never set, refuting the claim that
every task passes through the full chain
pending → validating → initializing → uploading → filling → publishing
before terminating. -/
theorem publish_status_skips_stages :
    publishStatusTrace true sampleImageNote true =
      ["validating", "initializing", "uploading", "completed"] ∧
    "filling" ∉ publishStatusTrace true sampleImageNote true ∧
    "publishing" ∉ publishStatusTrace true sampleImageNote true := by
  refine ⟨?_, ?_, ?_⟩ <;> decide

/-- C2 (amended): in every environment, the statuses written by the
background routine advance strictly forward along the chain
pending < validating < initializing < uploading < filling < publishing <
{completed, failed}, the trace ends in a terminal status, and the
`"filling"` stage is never set — stages may be skipped rather than all
traversed. -/
theorem publish_status_chain (cookies : Bool) (note : XHSNote) (success : Bool) :
    ("pending" :: publishStatusTrace cookies note success).Chain'
      (fun a b => statusIndex a < statusIndex b) ∧
    "filling" ∉ publishStatusTrace cookies note success ∧
    (∃ s, (publishStatusTrace cookies note success).getLast? = some s ∧
      statusTerminal s = true) := by
  by_cases hm : note.images ≠ [] ∨ note.videos ≠ [] <;>
    cases cookies <;> cases success <;>
    simp [publishStatusTrace, executePublishUpdates, hm, statusIndex,
      statusTerminal]

/-! ## Lemmas for the URL parsing pipeline -/

theorem splitOnFirst_not_mem (d : Char) (l : List Char) (h : d ∉ l) :
    splitOnFirst d l = (l, none) := by
  induction l with
  | nil => rfl
  | cons c cs ih =>
    have hc : ¬(c = d) := fun hcd => h (hcd ▸ List.mem_cons_self c cs)
    have hcs : d ∉ cs := fun hm => h (List.mem_cons_of_mem c hm)
    simp [splitOnFirst, hc, ih hcs]

theorem splitOnFirst_append (d : Char) (a b : List Char) (h : d ∉ a) :
    splitOnFirst d (a ++ d :: b) = (a, some b) := by
  induction a with
  | nil => simp [splitOnFirst]
  | cons c cs ih =>
    have hc : ¬(c = d) := fun hcd => h (hcd ▸ List.mem_cons_self c cs)
    have hcs : d ∉ cs := fun hm => h (List.mem_cons_of_mem c hm)
    simp [splitOnFirst, hc, ih hcs]

theorem afterNetloc_append (a b : List Char)
    (h : ∀ c ∈ a, ¬(c = '/' ∨ c = '?' ∨ c = '#')) :
    afterNetloc (a ++ b) = afterNetloc b := by
  induction a with
  | nil => rfl
  | cons c cs ih =>
    have hc := h c (List.mem_cons_self c cs)
    simp only [List.cons_append, afterNetloc]
    rw [if_neg hc]
    exact ih (fun x hx => h x (List.mem_cons_of_mem c hx))

theorem pySplit_not_mem (d : Char) (l : List Char) (h : d ∉ l) :
    pySplit d l = [l] := by
  induction l with
  | nil => rfl
  | cons c cs ih =>
    have hc : ¬(c = d) := fun hcd => h (hcd ▸ List.mem_cons_self c cs)
    have hcs : d ∉ cs := fun hm => h (List.mem_cons_of_mem c hm)
    simp [pySplit, hc, ih hcs]

theorem pySplit_append (d : Char) (a b : List Char) (h : d ∉ a) :
    pySplit d (a ++ d :: b) = a :: pySplit d b := by
  induction a with
  | nil => simp [pySplit]
  | cons c cs ih =>
    have hc : ¬(c = d) := fun hcd => h (hcd ▸ List.mem_cons_self c cs)
    have hcs : d ∉ cs := fun hm => h (List.mem_cons_of_mem c hm)
    simp [pySplit, hc, ih hcs]

theorem stripScheme_https (r : List Char) :
    stripScheme ('h' :: 't' :: 't' :: 'p' :: 's' :: ':' :: r) = r := by
  unfold stripScheme
  have hsplit : splitOnFirst ':' ('h' :: 't' :: 't' :: 'p' :: 's' :: ':' :: r) =
      (['h', 't', 't', 'p', 's'], some r) :=
    splitOnFirst_append ':' ['h', 't', 't', 'p', 's'] r (by decide)
  rw [hsplit]
  simp [isSchemeChar]

theorem stripNetloc_host (host rest : List Char)
    (h : ∀ c ∈ host, ¬(c = '/' ∨ c = '?' ∨ c = '#')) :
    stripNetloc ('/' :: '/' :: (host ++ '/' :: rest)) = '/' :: rest := by
  show afterNetloc (host ++ '/' :: rest) = '/' :: rest
  rw [afterNetloc_append host ('/' :: rest) h]
  simp [afterNetloc]

theorem urlPathQuery_token (H S T : List Char)
    (hH : ∀ c ∈ H, ¬(c = '/' ∨ c = '?' ∨ c = '#'))
    (hS2 : '?' ∉ S) (hS3 : '#' ∉ S)
    (hT3 : '#' ∉ T) :
    urlPathQuery ('h' :: 't' :: 't' :: 'p' :: 's' :: ':' :: '/' :: '/' ::
        (H ++ '/' :: ("explore".data ++ '/' ::
          (S ++ '?' :: ("xsec_token".data ++ '=' :: T))))) =
      ('/' :: ("explore".data ++ '/' :: S),
       "xsec_token".data ++ '=' :: T) := by
  unfold urlPathQuery
  simp only [stripScheme_https, stripNetloc_host _ _ hH]
  have hhash : '#' ∉ '/' :: ("explore".data ++ '/' ::
      (S ++ '?' :: ("xsec_token".data ++ '=' :: T))) := by
    intro hmem
    simp [List.mem_cons, List.mem_append] at hmem
    rcases hmem with h | h
    · exact hS3 h
    · exact hT3 h
  simp only [splitOnFirst_not_mem '#' _ hhash]
  have hshape : '/' :: ("explore".data ++ '/' ::
      (S ++ '?' :: ("xsec_token".data ++ '=' :: T))) =
      ('/' :: ("explore".data ++ '/' :: S)) ++ '?' ::
        ("xsec_token".data ++ '=' :: T) := by
    simp
  simp only [hshape]
  have hq : '?' ∉ '/' :: ("explore".data ++ '/' :: S) := by
    intro hmem
    simp [List.mem_cons, List.mem_append] at hmem
    exact hS2 hmem
  simp only [splitOnFirst_append '?' _ _ hq, Option.getD_some]

theorem urlPathQuery_noquery (H S : List Char)
    (hH : ∀ c ∈ H, ¬(c = '/' ∨ c = '?' ∨ c = '#'))
    (hS2 : '?' ∉ S) (hS3 : '#' ∉ S) :
    urlPathQuery ('h' :: 't' :: 't' :: 'p' :: 's' :: ':' :: '/' :: '/' ::
        (H ++ '/' :: ("explore".data ++ '/' :: S))) =
      ('/' :: ("explore".data ++ '/' :: S), []) := by
  unfold urlPathQuery
  simp only [stripScheme_https, stripNetloc_host _ _ hH]
  have hhash : '#' ∉ '/' :: ("explore".data ++ '/' :: S) := by
    intro hmem
    simp [List.mem_cons, List.mem_append] at hmem
    exact hS3 hmem
  simp only [splitOnFirst_not_mem '#' _ hhash]
  have hq : '?' ∉ '/' :: ("explore".data ++ '/' :: S) := by
    intro hmem
    simp [List.mem_cons, List.mem_append] at hmem
    exact hS2 hmem
  simp only [splitOnFirst_not_mem '?' _ hq, Option.getD_none]

theorem trailing_segment (S : List Char) (hS : '/' ∉ S) :
    (pySplit '/' ('/' :: ("explore".data ++ '/' :: S))).getLastD [] = S := by
  have h1 : pySplit '/' ('/' :: ("explore".data ++ '/' :: S)) =
      [] :: pySplit '/' ("explore".data ++ '/' :: S) := by
    simp [pySplit]
  rw [h1, pySplit_append '/' _ _ (by decide), pySplit_not_mem '/' S hS]
  simp

theorem pyPlusToSpace_eq_self (l : List Char) (h : '+' ∉ l) :
    pyPlusToSpace l = l := by
  induction l with
  | nil => rfl
  | cons c rest ih =>
    have hc : ¬(c = '+') := fun hcd => h (hcd ▸ List.mem_cons_self c rest)
    have hrest : '+' ∉ rest := fun hm => h (List.mem_cons_of_mem c hm)
    simp [pyPlusToSpace, hc]
    simpa [pyPlusToSpace] using ih hrest

theorem pyUnquote_eq_self (l : List Char) (h : '%' ∉ l) : pyUnquote l = l := by
  induction l with
  | nil => rfl
  | cons c rest ih =>
    have hc : ¬(c = '%') := fun hcd => h (hcd ▸ List.mem_cons_self c rest)
    have hrest : '%' ∉ rest := fun hm => h (List.mem_cons_of_mem c hm)
    cases rest with
    | nil => simp [pyUnquote, hc]
    | cons c1 r1 =>
      cases r1 with
      | nil => simp [pyUnquote, hc, ih hrest]
      | cons c2 r2 => simp [pyUnquote, hc, ih hrest]

theorem pyUnquotePlus_eq_self (l : List Char) (hp : '+' ∉ l) (hpc : '%' ∉ l) :
    pyUnquotePlus l = l := by
  unfold pyUnquotePlus
  rw [pyPlusToSpace_eq_self l hp, pyUnquote_eq_self l hpc]

theorem parseQsGet_single (T : List Char) (hT2 : '&' ∉ T) (hT0 : T ≠ [])
    (hTp : '+' ∉ T) (hTpc : '%' ∉ T) :
    parseQsGet ("xsec_token".data ++ '=' :: T) "xsec_token".data = some T := by
  unfold parseQsGet
  have hamp : '&' ∉ "xsec_token".data ++ '=' :: T := by
    intro hmem
    simp [List.mem_append, List.mem_cons] at hmem
    exact hT2 hmem
  rw [pySplit_not_mem '&' _ hamp]
  have hsplit : splitOnFirst '=' ("xsec_token".data ++ '=' :: T) =
      ("xsec_token".data, some T) :=
    splitOnFirst_append '=' _ T (by decide)
  have hkey : pyUnquotePlus "xsec_token".data = "xsec_token".data := by decide
  simp only [List.filterMap_cons, List.filterMap_nil, hsplit]
  simp [hT0, hkey, pyUnquotePlus_eq_self T hTp hTpc]

theorem parseQsGet_nil : parseQsGet [] "xsec_token".data = none := by decide

/-- C3: id/token extraction.  For a post URL
`https://<host>/explore/<seg>?xsec_token=<tok>` (components free of URL
delimiters; token non-empty and free of `+`/`%`, so `unquote_plus` leaves
it unchanged), the result is the trailing path segment and the
`xsec_token` query value; without the query parameter the token is
`None`; for a concatenated id string of length ≥ 24 passed via `note_ids`,
the result is the first 24 characters and the remainder. -/
theorem get_nodeid_token_spec :
    (∀ host seg tok : String,
      ('/' ∉ host.data ∧ '?' ∉ host.data ∧ '#' ∉ host.data) →
      ('/' ∉ seg.data ∧ '?' ∉ seg.data ∧ '#' ∉ seg.data) →
      ('#' ∉ tok.data ∧ '&' ∉ tok.data ∧ '=' ∉ tok.data ∧
        '+' ∉ tok.data ∧ '%' ∉ tok.data) → tok ≠ "" →
      get_nodeid_token (some ("https://" ++ host ++ "/explore/" ++ seg ++
        "?xsec_token=" ++ tok)) none = ⟨seg, some tok⟩) ∧
    (∀ host seg : String,
      ('/' ∉ host.data ∧ '?' ∉ host.data ∧ '#' ∉ host.data) →
      ('/' ∉ seg.data ∧ '?' ∉ seg.data ∧ '#' ∉ seg.data) →
      get_nodeid_token (some ("https://" ++ host ++ "/explore/" ++ seg)) none =
        ⟨seg, none⟩) ∧
    (∀ ids : String, 24 ≤ ids.length →
      get_nodeid_token none (some ids) =
        ⟨ids.take 24, some (ids.drop 24)⟩) := by
  refine ⟨?_, ?_, ?_⟩
  · intro host seg tok hhost hseg htok htok0
    have hH : ∀ c ∈ host.data, ¬(c = '/' ∨ c = '?' ∨ c = '#') := by
      intro c hc h
      rcases h with h | h | h <;> subst h
      · exact hhost.1 hc
      · exact hhost.2.1 hc
      · exact hhost.2.2 hc
    have htok0ne : tok.data ≠ [] := by
      intro h
      exact htok0 (String.ext (by rw [h]))
    have hdata : ("https://" ++ host ++ "/explore/" ++ seg ++ "?xsec_token="
        ++ tok).data =
        'h' :: 't' :: 't' :: 'p' :: 's' :: ':' :: '/' :: '/' ::
          (host.data ++ '/' :: ("explore".data ++ '/' ::
            (seg.data ++ '?' :: ("xsec_token".data ++ '=' :: tok.data)))) := by
      simp only [String.data_append, List.append_assoc]
      rfl
    unfold get_nodeid_token
    simp only [Option.getD_some, hdata,
      urlPathQuery_token host.data seg.data tok.data hH hseg.2.1 hseg.2.2
        htok.1,
      trailing_segment seg.data hseg.1,
      parseQsGet_single tok.data htok.2.1 htok0ne htok.2.2.2.1 htok.2.2.2.2,
      Option.map_some]
    rfl
  · intro host seg hhost hseg
    have hH : ∀ c ∈ host.data, ¬(c = '/' ∨ c = '?' ∨ c = '#') := by
      intro c hc h
      rcases h with h | h | h <;> subst h
      · exact hhost.1 hc
      · exact hhost.2.1 hc
      · exact hhost.2.2 hc
    have hdata : ("https://" ++ host ++ "/explore/" ++ seg).data =
        'h' :: 't' :: 't' :: 'p' :: 's' :: ':' :: '/' :: '/' ::
          (host.data ++ '/' :: ("explore".data ++ '/' :: seg.data)) := by
      simp only [String.data_append, List.append_assoc]
      rfl
    unfold get_nodeid_token
    simp only [Option.getD_some, hdata,
      urlPathQuery_noquery host.data seg.data hH hseg.2.1 hseg.2.2,
      trailing_segment seg.data hseg.1, parseQsGet_nil, Option.map_none]
    rfl
  · intro ids h
    rfl


set_option maxRecDepth 4096 in
/-- Witness for C3 at the claim's concrete inputs: the example URL (with
and without token) and the 30-character combined id string. -/
theorem get_nodeid_token_spec_witness :
    get_nodeid_token (some ("https://" ++ "www.xiaohongshu.com" ++
      "/explore/" ++ "abc123" ++ "?xsec_token=" ++ "tok1")) none =
      ⟨"abc123", some "tok1"⟩ ∧
    get_nodeid_token (some ("https://" ++ "www.xiaohongshu.com" ++
      "/explore/" ++ "abc123")) none = ⟨"abc123", none⟩ ∧
    get_nodeid_token none (some "aaaaaaaaaaaaaaaaaaaaaaaabbbbbb") =
      ⟨"aaaaaaaaaaaaaaaaaaaaaaaabbbbbb".take 24,
       some ("aaaaaaaaaaaaaaaaaaaaaaaabbbbbb".drop 24)⟩ ∧
    ("aaaaaaaaaaaaaaaaaaaaaaaabbbbbb" : String).take 24 =
      "aaaaaaaaaaaaaaaaaaaaaaaa" ∧
    ("aaaaaaaaaaaaaaaaaaaaaaaabbbbbb" : String).drop 24 = "bbbbbb" :=
  ⟨get_nodeid_token_spec.1 "www.xiaohongshu.com" "abc123" "tok1"
     (by decide) (by decide) (by decide) (by decide),
   get_nodeid_token_spec.2.1 "www.xiaohongshu.com" "abc123"
     (by decide) (by decide),
   get_nodeid_token_spec.2.2 "aaaaaaaaaaaaaaaaaaaaaaaabbbbbb" (by decide),
   by decide, by decide⟩
